import Mathlib

/-!
# Verification of the `oops_python` order-processing samples

Shallow embedding of the two Python modules
`sample_design_violations_and_solution/sample_design_violations.py`
(namespace `Violating`) and
`sample_design_violations_and_solution/refactored_design.py`
(namespace `Refactored`), together with theorems settling the spec's
claims about them.

Modelling conventions:
* Python floats on prices and totals are modelled by `ℚ`; the decimal
  literals in the source (`0.98`, `1.02`, `1.39`, `0.8`, `0.6`) are
  carried over exactly as rationals.
* `int(...)` coercion of a (possibly fractional) quantity is modelled by
  `pyIntOfRat`, truncation toward zero, as Python's `int()` does.
* The module-level mutable `CONFIG` dict of the violating module is the
  `Config` record, threaded explicitly as state.
* Exceptions (`ValueError`, `RuntimeError`, `AttributeError`) are the
  `PyError` type; fallible computations return `Except PyError`.
* External side effects (payment charge, SQL insert, SMTP send, HTTP
  post, CSV append) are stubs in the source; each run records them as an
  abstract event trace.  The HTTP analytics post is the only collaborator
  whose failure the source handles, so its success is a `Bool` parameter.
* Python attribute lookup on the refactored collaborator classes is
  modelled by per-class `getattr` functions returning `Option`; a `none`
  result at a call site is an `AttributeError`.
-/

/-- A line item: the order dicts hold `{"price": p, "quantity": q}` where
the `"quantity"` key may be absent (`none`). -/
structure Item where
  price : ℚ
  quantity : Option ℚ
  deriving DecidableEq, Repr

/-- An order dict: `id`, `email`, `items`, `country`, `status`. -/
structure Order where
  id : String
  email : String
  items : List Item
  country : String
  status : String
  deriving DecidableEq, Repr

/-- The exceptions the two modules can raise. -/
inductive PyError where
  | valueError (msg : String)
  | runtimeError (msg : String)
  | attributeError (name : String)
  deriving DecidableEq, Repr

instance {ε α : Type} [DecidableEq ε] [DecidableEq α] :
    DecidableEq (Except ε α) := fun x y =>
  match x, y with
  | .ok a, .ok b =>
      if h : a = b then isTrue (by rw [h]) else isFalse (by simp [h])
  | .error e, .error f =>
      if h : e = f then isTrue (by rw [h]) else isFalse (by simp [h])
  | .ok _, .error _ => isFalse (by simp)
  | .error _, .ok _ => isFalse (by simp)

/-- Python's `int()` applied to a rational: truncation toward zero
(`int(2.7) = 2`, `int(-2.7) = -2`), i.e. T-division of numerator by
denominator. -/
def pyIntOfRat (q : ℚ) : ℤ := Int.tdiv q.num q.den

/-- The contribution of one item to a subtotal:
`float(it["price"]) * int(it.get("quantity", 1))`, as written in both
`_calc_total` (violating module, line 66) and `process`
(refactored module, line 144). -/
def itemContribution (it : Item) : ℚ :=
  it.price * ((pyIntOfRat (it.quantity.getD 1) : ℤ) : ℚ)

/-- The accumulation loop of `_calc_total` / the generator sum of the
refactored `process`: a left fold starting from `0`. -/
def sumItems (items : List Item) : ℚ :=
  items.foldl (fun acc it => acc + itemContribution it) 0

/-- Modelled from the spec's words (§8: "total = Σ(price×quantity)"):
the sum over the items of price times quantity, as a mapped `List.sum`,
to be compared with the source's accumulation loop `sumItems`. -/
def specRawTotal (items : List Item) : ℚ :=
  (items.map itemContribution).sum

/-- The module-level `CONFIG` dict of the violating module. -/
structure Config where
  db_path : String
  email_host : String
  discount : ℚ
  deriving DecidableEq, Repr

/-- `CONFIG = {"db_path": "orders.db", "email_host": "smtp.example.com",
"discount": 0.8}` (violating module, line 8). -/
def initialCONFIG : Config :=
  { db_path := "orders.db", email_host := "smtp.example.com", discount := 0.8 }

namespace Violating

/-- The mutable instance state of the violating `OrderProcessor`:
`_customer_id` (from `BaseOrderProcessor.__init__`), `_payment_type`,
`_total_processed`, `_logs`. -/
structure VState where
  customer_id : String
  payment_type : String
  total_processed : ℕ
  logs : List String
  deriving DecidableEq, Repr

/-- The observable side effects of one `process` call, in program order.
`setStatus` records a write to `order["status"]`; the remaining
constructors record the stubbed external calls. -/
inductive VEvent where
  | setStatus (s : String)
  | chargePaypal (total : ℚ)
  | chargeCC (total : ℚ)
  | dbSave (id : String) (total : ℚ) (status : String)
  | email (recipient : String) (total : ℚ)
  | analyticsPost (id : String) (ok : Bool)
  | csvBackup (id : String) (recipient : String) (status : String)
  deriving DecidableEq, Repr

/-- The tuple of countries accepted by the hardcoded check on line 43. -/
def supportedCountries : List String := ["CH", "DE", "AT", "EU", "Worldwide"]

/-- `OrderProcessor._calc_total` (lines 61-69): accumulate
`float(price) * int(quantity or 1)`, then multiply by `1.39` when the
subtotal exceeds `1000` (the "export tariff" branch). -/
def calc_total (items : List Item) : ℚ :=
  let subtotal := sumItems items
  if subtotal > 1000 then subtotal * 1.39 else subtotal

/-- `OrderProcessor._apply_discounts` (lines 72-81): hardcoded rules on
`self._payment_type`; the `"promo"` branch reads the global
`CONFIG["discount"]`. -/
def apply_discounts (payment_type : String) (cfg : Config) (total : ℚ) : ℚ :=
  if payment_type = "paypal" then total * 0.98
  else if payment_type = "credit-card" then total * 1.02
  else if payment_type = "promo" then total * (1 - cfg.discount)
  else total

/-- `OrderProcessor._charge_payment` (lines 84-92): PayPal branch for
`"paypal"`/`"promo"`, credit-card branch for `"credit-card"`, otherwise
`RuntimeError("Unknown payment type")`.  Returns the emitted event and
the appended log line. -/
def charge_payment (payment_type : String) (total : ℚ) :
    Except PyError (VEvent × String) :=
  if payment_type = "paypal" ∨ payment_type = "promo" then
    .ok (.chargePaypal total, "Charged via PayPal: " ++ toString total)
  else if payment_type = "credit-card" then
    .ok (.chargeCC total, "Charged via CC: " ++ toString total)
  else
    .error (.runtimeError "Unknown payment type")

/-- `OrderProcessor._post_analytics` (lines 111-118) acting on `_logs`:
the HTTP post is attempted; on failure (`ok = false`) the exception is
swallowed and `"Failed to post analytics"` is appended; then
`"Analytics posted"` is appended unconditionally. -/
def post_analytics (logs : List String) (ok : Bool) : List String :=
  (if ok then logs else logs ++ ["Failed to post analytics"]) ++
    ["Analytics posted"]

/-- The result of one `process` call: the updated instance state, the
mutated order dict, the (unchanged) global config, the event trace, and
the returned total or the raised exception. -/
structure VResult where
  self : VState
  order : Order
  config : Config
  events : List VEvent
  result : Except PyError ℚ
  deriving DecidableEq, Repr

/-- `OrderProcessor.process` (lines 40-57): set status to
`"processing"`; reject unsupported countries with `ValueError`; compute
the total, apply discounts, charge, save to DB, email, post analytics,
back up to CSV; increment `_total_processed`; set status to `"done"`
and return the total.  `ok` is whether the analytics HTTP post
succeeds. -/
def process (self : VState) (cfg : Config) (ok : Bool) (order : Order) :
    VResult :=
  let o := { order with status := "processing" }
  let evs := [VEvent.setStatus "processing"]
  if o.country ∈ supportedCountries then
    let total := calc_total o.items
    let total := apply_discounts self.payment_type cfg total
    match charge_payment self.payment_type total with
    | .error e => ⟨self, o, cfg, evs, .error e⟩
    | .ok (chargeEv, chargeMessage) =>
      let self1 : VState := { self with logs := self.logs ++ [chargeMessage] }
      let evs := evs ++ [chargeEv]
      let evs := evs ++ [VEvent.dbSave o.id total o.status]
      let self2 : VState :=
        { self1 with logs := self1.logs ++ ["Email sent to customer"] }
      let evs := evs ++ [VEvent.email o.email total]
      let self3 : VState := { self2 with logs := post_analytics self2.logs ok }
      let evs := evs ++ [VEvent.analyticsPost o.id ok]
      let self4 : VState :=
        { self3 with logs := self3.logs ++ ["Backup CSV updated"] }
      let evs := evs ++ [VEvent.csvBackup o.id o.email o.status]
      let self5 : VState :=
        { self4 with total_processed := self4.total_processed + 1 }
      let done : Order := { o with status := "done" }
      ⟨self5, done, cfg, evs ++ [VEvent.setStatus "done"], .ok total⟩
  else
    ⟨self, o, cfg, evs,
      .error (.valueError "Unsupported country, cannot proceed")⟩

/-- A heap cell lookup for the tiny object heap used to model Python
object identity for the singleton. -/
def heapGet (h : List (ℕ × VState)) (a : ℕ) : Option VState :=
  match h with
  | [] => none
  | (b, v) :: t => if b = a then some v else heapGet t a

/-- Write `v` at address `a` in the heap. -/
def heapSet (h : List (ℕ × VState)) (a : ℕ) (v : VState) :
    List (ℕ × VState) :=
  match h with
  | [] => [(a, v)]
  | (b, w) :: t => if b = a then (a, v) :: t else (b, w) :: heapSet t a v

/-- The process-wide state of the violating module: the class attribute
`OrderProcessor._instance` (an object reference or `None`), the object
heap, a fresh-address counter, and the global `CONFIG`. -/
structure VWorld where
  instanceAddr : Option ℕ
  heap : List (ℕ × VState)
  nextAddr : ℕ
  config : Config
  deriving DecidableEq, Repr

/-- The state of the world when the module is first imported: no
singleton instance yet, `CONFIG` at its literal value. -/
def initialWorld : VWorld :=
  { instanceAddr := none, heap := [], nextAddr := 0, config := initialCONFIG }

/-- `OrderProcessor(customer_id, payment_type)`: `__new__` (lines 26-29)
returns the cached `cls._instance`, allocating it only when absent; then
`__init__` (lines 32-38) runs on the returned object, overwriting
`_customer_id` and `_payment_type` and resetting `_total_processed` to
`0` and `_logs` to `[]`, and sets `CONFIG["discount"]` to `0.6` when
`payment_type == "promo"`.  Returns the address of the constructed
object and the updated world. -/
def construct (w : VWorld) (customer_id payment_type : String) :
    ℕ × VWorld :=
  let (addr, w1) :=
    match w.instanceAddr with
    | some a => (a, w)
    | none =>
        (w.nextAddr,
         { w with instanceAddr := some w.nextAddr,
                  nextAddr := w.nextAddr + 1 })
  let obj : VState :=
    { customer_id := customer_id, payment_type := payment_type,
      total_processed := 0, logs := [] }
  (addr,
   { w1 with
     heap := heapSet w1.heap addr obj,
     config :=
       if payment_type = "promo" then { w1.config with discount := 0.6 }
       else w1.config })

/-- Run a sequence of constructor calls `(customer_id, payment_type)`
against a world. -/
def runConstructs (w : VWorld) (calls : List (String × String)) : VWorld :=
  calls.foldl (fun w c => (construct w c.1 c.2).2) w

/-- The charge event emitted for a known payment type. -/
def chargeEvent (payment_type : String) (total : ℚ) : VEvent :=
  if payment_type = "credit-card" then .chargeCC total
  else .chargePaypal total

/-- The charge log line appended for a known payment type. -/
def chargeMsg (payment_type : String) (total : ℚ) : String :=
  if payment_type = "credit-card" then "Charged via CC: " ++ toString total
  else "Charged via PayPal: " ++ toString total

/-- A payment type `_charge_payment` accepts without raising. -/
def knownPaymentType (payment_type : String) : Prop :=
  payment_type = "paypal" ∨ payment_type = "credit-card" ∨
    payment_type = "promo"

instance (payment_type : String) :
    Decidable (knownPaymentType payment_type) := by
  unfold knownPaymentType; infer_instance

/-- Classify an event as one of the spec's five side-effecting steps
(`charge`, `save`, `notify`, `track`, `backup`); status writes are not
side-effecting steps. -/
def sideKind : VEvent → Option String
  | .setStatus _ => none
  | .chargePaypal _ => some "charge"
  | .chargeCC _ => some "charge"
  | .dbSave _ _ _ => some "save"
  | .email _ _ => some "notify"
  | .analyticsPost _ _ => some "track"
  | .csvBackup _ _ _ => some "backup"

/-- The totals passed to the payment charge, in trace order. -/
def chargedTotals (evs : List VEvent) : List ℚ :=
  evs.filterMap fun e =>
    match e with
    | .chargePaypal t => some t
    | .chargeCC t => some t
    | _ => none

/-- Whether an event is a write to `order["status"]`. -/
def isStatusWrite : VEvent → Bool
  | .setStatus _ => true
  | _ => false

/-- The class-level invariant maintained by the singleton `__new__`:
either no instance has been created yet, or exactly one object exists
on the heap and `_instance` points to it. -/
def singletonInv (w : VWorld) : Prop :=
  (w.instanceAddr = none ∧ w.heap = []) ∨
    (∃ a v, w.instanceAddr = some a ∧ w.heap = [(a, v)])

end Violating

namespace Refactored

/-- The concrete `DiscountPolicy` subclasses of the refactored module
(lines 15-34); `PromoDiscount` stores the `rate` passed to its
constructor. -/
inductive RDiscountClass where
  | noDiscount
  | paypalDiscount
  | creditCardFee
  | promoDiscount (rate : ℚ)
  deriving DecidableEq, Repr

/-- The `_apply_discounts` methods of the four concrete subclasses:
identity, `total * 0.98`, `total * 1.02`, `total * (1 - rate)`. -/
def RDiscountClass.apply_discounts : RDiscountClass → ℚ → ℚ
  | .noDiscount, total => total
  | .paypalDiscount, total => total * 0.98
  | .creditCardFee, total => total * 1.02
  | .promoDiscount rate, total => total * (1 - rate)

/-- Attribute lookup on a discount-policy instance: every concrete
subclass defines exactly the method `_apply_discounts`. -/
def RDiscountClass.getattr (c : RDiscountClass) (name : String) :
    Option (ℚ → ℚ) :=
  if name = "_apply_discounts" then some c.apply_discounts else none

/-- The concrete `PaymentGateway` subclasses (lines 44-50). -/
inductive RPaymentClass where
  | paypalGateway
  | creditCardGateway
  deriving DecidableEq, Repr

/-- Attribute lookup on a payment-gateway instance: both subclasses
define exactly the method `_charge_payment` (whose body only prints). -/
def RPaymentClass.getattr (_c : RPaymentClass) (name : String) :
    Option Unit :=
  if name = "_charge_payment" then some () else none

/-- `SqliteOrderRepository` (lines 60-73): holds `db_path`. -/
structure SqliteOrderRepository where
  db_path : String
  deriving DecidableEq, Repr

/-- Attribute lookup on the repository instance: it defines the method
`_save_to_db` and the data attribute `db_path`. -/
def SqliteOrderRepository.getattr (_r : SqliteOrderRepository)
    (name : String) : Option Unit :=
  if name = "_save_to_db" ∨ name = "db_path" then some () else none

/-- `EmailNotification` (lines 80-93): holds `host`. -/
structure EmailNotification where
  host : String
  deriving DecidableEq, Repr

/-- Attribute lookup on the notification instance: it defines the method
`_email_customer` and the data attribute `host`. -/
def EmailNotification.getattr (_n : EmailNotification) (name : String) :
    Option Unit :=
  if name = "_email_customer" ∨ name = "host" then some () else none

/-- `HttpAnalytics` (lines 100-118): holds its `_logs` list. -/
structure HttpAnalytics where
  logs : List String
  deriving DecidableEq, Repr

/-- `HttpAnalytics.track` (lines 104-118): attempt the HTTP post; when
it fails (`ok = false`) the exception is swallowed and a failure line is
appended to `_logs`; then the "Analytics posted" line is appended
unconditionally.  The method is total: no exception escapes it. -/
def HttpAnalytics.track (a : HttpAnalytics) (ok : Bool) (order : Order) :
    HttpAnalytics :=
  { a with
    logs :=
      (if ok then a.logs
       else a.logs ++
         ["⚠️ Failed to post analytics for order " ++ order.id]) ++
      ["📊 Analytics posted for order " ++ order.id] }

/-- Attribute lookup on the analytics instance: it defines the method
`track` and the data attribute `_logs`. -/
def HttpAnalytics.getattr (_a : HttpAnalytics) (name : String) :
    Option Unit :=
  if name = "track" ∨ name = "_logs" then some () else none

/-- `CsvBackup` (lines 125-127): stateless. -/
structure CsvBackup where
  deriving DecidableEq, Repr

/-- Attribute lookup on the backup instance: it defines the method
`backup` (whose body only prints). -/
def CsvBackup.getattr (_b : CsvBackup) (name : String) : Option Unit :=
  if name = "backup" then some () else none

/-- The observable side effects of one refactored `process` call. -/
inductive REvent where
  | charge (total : ℚ)
  | save (id : String) (total : ℚ)
  | notify (recipient : String) (total : ℚ)
  | track (id : String) (ok : Bool)
  | backup (id : String)
  deriving DecidableEq, Repr

/-- The refactored `OrderProcessor` (lines 130-138): a record of the six
collaborators injected through `__init__`, here fixed to the concrete
classes defined in the same file. -/
structure RProcessor where
  discount_policy : RDiscountClass
  payment_gateway : RPaymentClass
  repo : SqliteOrderRepository
  notifier : EmailNotification
  analytics : HttpAnalytics
  backup : CsvBackup
  deriving DecidableEq, Repr

/-- The result of one refactored `process` call: the mutated order, the
analytics collaborator's `_logs` afterwards, the (untouched) global
config, the event trace, and the returned total or raised exception. -/
structure RResult where
  order : Order
  analytics_logs : List String
  config : Config
  events : List REvent
  result : Except PyError ℚ
  deriving DecidableEq, Repr

/-- The refactored `OrderProcessor.process` (lines 140-154): set status
to `"processing"`, sum the items, then call
`discount_policy.apply`, `payment_gateway.charge`, `repo.save`,
`notifier.notify`, `analytics.track`, `backup.backup` in order, set
status to `"done"` and return the total.  Each call first resolves the
attribute name on the concrete collaborator; a missing attribute is an
`AttributeError` raised at that step.  The `cfg` parameter stands for
the process-wide `CONFIG` of the violating module, passed through to
show the refactored coordinator neither reads nor writes it (the
refactored module defines no globals).  `ok` is whether the analytics
HTTP post would succeed. -/
def RProcessor.process (p : RProcessor) (cfg : Config) (ok : Bool)
    (order : Order) : RResult :=
  let o := { order with status := "processing" }
  let total := sumItems o.items
  match p.discount_policy.getattr "apply" with
  | none => ⟨o, p.analytics.logs, cfg, [], .error (.attributeError "apply")⟩
  | some f =>
    let total := f total
    match p.payment_gateway.getattr "charge" with
    | none =>
        ⟨o, p.analytics.logs, cfg, [], .error (.attributeError "charge")⟩
    | some _ =>
      let evs := [REvent.charge total]
      match p.repo.getattr "save" with
      | none =>
          ⟨o, p.analytics.logs, cfg, evs, .error (.attributeError "save")⟩
      | some _ =>
        let evs := evs ++ [REvent.save o.id total]
        match p.notifier.getattr "notify" with
        | none =>
            ⟨o, p.analytics.logs, cfg, evs, .error (.attributeError "notify")⟩
        | some _ =>
          let evs := evs ++ [REvent.notify o.email total]
          match p.analytics.getattr "track" with
          | none =>
              ⟨o, p.analytics.logs, cfg, evs,
                .error (.attributeError "track")⟩
          | some _ =>
            let a := p.analytics.track ok o
            let evs := evs ++ [REvent.track o.id ok]
            match p.backup.getattr "backup" with
            | none => ⟨o, a.logs, cfg, evs, .error (.attributeError "backup")⟩
            | some _ =>
              let evs := evs ++ [REvent.backup o.id]
              ⟨{ o with status := "done" }, a.logs, cfg, evs, .ok total⟩

end Refactored

/-- The items list of the spec's worked example:
`[{price: 10, quantity: 2}]`. -/
def sampleItems : List Item := [⟨10, some 2⟩]

/-- A concrete order with a supported country. -/
def sampleOrder : Order :=
  { id := "o1", email := "alice@example.com", items := sampleItems,
    country := "CH", status := "new" }

/-- A concrete order with an unsupported country. -/
def badCountryOrder : Order :=
  { id := "o2", email := "bob@example.com", items := sampleItems,
    country := "XX", status := "new" }

/-- A concrete violating-processor instance state using PayPal. -/
def sampleVState : Violating.VState :=
  { customer_id := "c1", payment_type := "paypal",
    total_processed := 0, logs := [] }

/-- A concrete refactored processor wired with the concrete collaborator
classes defined in the refactored module. -/
def sampleRProcessor : Refactored.RProcessor :=
  { discount_policy := .noDiscount, payment_gateway := .paypalGateway,
    repo := { db_path := "orders.db" },
    notifier := { host := "smtp.example.com" },
    analytics := { logs := [] }, backup := {} }

theorem sumItems_eq_specRawTotal (items : List Item) :
    sumItems items = specRawTotal items := by
  have h : ∀ (l : List Item) (a : ℚ),
      l.foldl (fun acc it => acc + itemContribution it) a =
        a + (l.map itemContribution).sum := by
    intro l
    induction l with
    | nil => intro a; simp
    | cons hd tl ih =>
        intro a
        simp only [List.foldl_cons, List.map_cons, List.sum_cons, ih]
        ring
  simpa [sumItems, specRawTotal] using h items 0

namespace Refactored

theorem process_eq (p : RProcessor) (cfg : Config) (ok : Bool)
    (order : Order) :
    p.process cfg ok order =
      ⟨{ order with status := "processing" }, p.analytics.logs, cfg, [],
        .error (.attributeError "apply")⟩ := by
  simp [RProcessor.process, RDiscountClass.getattr]

end Refactored

namespace Violating

theorem process_spec (self : VState) (cfg : Config) (ok : Bool)
    (order : Order) (h1 : order.country ∈ supportedCountries)
    (h2 : knownPaymentType self.payment_type) :
    process self cfg ok order =
      { self :=
          { self with
            logs :=
              self.logs ++
                ([chargeMsg self.payment_type
                    (apply_discounts self.payment_type cfg
                      (calc_total order.items)),
                  "Email sent to customer"] ++
                  (if ok then [] else ["Failed to post analytics"]) ++
                  ["Analytics posted", "Backup CSV updated"]),
            total_processed := self.total_processed + 1 },
        order := { order with status := "done" },
        config := cfg,
        events :=
          [VEvent.setStatus "processing",
           chargeEvent self.payment_type
             (apply_discounts self.payment_type cfg (calc_total order.items)),
           VEvent.dbSave order.id
             (apply_discounts self.payment_type cfg (calc_total order.items))
             "processing",
           VEvent.email order.email
             (apply_discounts self.payment_type cfg (calc_total order.items)),
           VEvent.analyticsPost order.id ok,
           VEvent.csvBackup order.id order.email "processing",
           VEvent.setStatus "done"],
        result :=
          .ok (apply_discounts self.payment_type cfg
            (calc_total order.items)) } := by
  rcases h2 with h | h | h <;>
    simp [process, h1, h, charge_payment, post_analytics, chargeEvent,
      chargeMsg, List.append_assoc] <;>
    cases ok <;> simp

theorem process_unsupported (self : VState) (cfg : Config) (ok : Bool)
    (order : Order) (h : order.country ∉ supportedCountries) :
    process self cfg ok order =
      ⟨self, { order with status := "processing" }, cfg,
        [VEvent.setStatus "processing"],
        .error (.valueError "Unsupported country, cannot proceed")⟩ := by
  simp [process, h]

theorem process_result_ok (self : VState) (cfg : Config) (ok : Bool)
    (order : Order) (t : ℚ)
    (h : (process self cfg ok order).result = .ok t) :
    order.country ∈ supportedCountries ∧
      knownPaymentType self.payment_type ∧
      t = apply_discounts self.payment_type cfg (calc_total order.items) := by
  by_cases h1 : order.country ∈ supportedCountries
  · by_cases h2 : knownPaymentType self.payment_type
    · refine ⟨h1, h2, ?_⟩
      rw [process_spec self cfg ok order h1 h2] at h
      simpa using h.symm
    · exfalso
      have hp : ¬ self.payment_type = "paypal" ∧
          ¬ self.payment_type = "credit-card" ∧
          ¬ self.payment_type = "promo" := by
        unfold knownPaymentType at h2; tauto
      simp [process, h1, charge_payment, hp.1, hp.2.1, hp.2.2] at h
  · rw [process_unsupported self cfg ok order h1] at h
    simp at h

theorem heapGet_heapSet_same (h : List (ℕ × VState)) (a : ℕ) (v : VState) :
    heapGet (heapSet h a v) a = some v := by
  induction h with
  | nil => simp [heapSet, heapGet]
  | cons hd tl ih =>
      by_cases hb : hd.1 = a
      · simp [heapSet, heapGet, hb]
      · simpa [heapSet, heapGet, hb] using ih

theorem construct_singletonInv (w : VWorld) (cid pt : String)
    (h : singletonInv w) : singletonInv (construct w cid pt).2 := by
  rcases h with ⟨hi, hh⟩ | ⟨a, v, hi, hh⟩
  · right
    refine ⟨w.nextAddr, ⟨cid, pt, 0, []⟩, ?_, ?_⟩ <;>
      simp [construct, hi, hh, heapSet]
  · right
    refine ⟨a, ⟨cid, pt, 0, []⟩, ?_, ?_⟩ <;>
      simp [construct, hi, hh, heapSet]

theorem runConstructs_singletonInv (calls : List (String × String))
    (w : VWorld) (h : singletonInv w) :
    singletonInv (runConstructs w calls) := by
  induction calls generalizing w with
  | nil => simpa [runConstructs] using h
  | cons hd tl ih =>
      have heq : runConstructs w (hd :: tl) =
          runConstructs (construct w hd.1 hd.2).2 tl := by
        simp [runConstructs]
      rw [heq]
      exact ih _ (construct_singletonInv w hd.1 hd.2 h)

theorem construct_instanceAddr (w : VWorld) (cid pt : String) :
    (construct w cid pt).2.instanceAddr = some (construct w cid pt).1 := by
  cases hw : w.instanceAddr <;> simp [construct, hw]

theorem construct_of_instanceAddr (w : VWorld) (a : ℕ) (cid pt : String)
    (h : w.instanceAddr = some a) :
    (construct w cid pt).1 = a ∧
      heapGet (construct w cid pt).2.heap a = some ⟨cid, pt, 0, []⟩ := by
  constructor
  · simp [construct, h]
  · simp [construct, h, heapGet_heapSet_same]

end Violating


theorem pyIntOfRat_one : pyIntOfRat 1 = 1 := by
  unfold pyIntOfRat; norm_num

theorem pyIntOfRat_two : pyIntOfRat 2 = 2 := by
  unfold pyIntOfRat; norm_num

theorem sumItems_sample : sumItems sampleItems = 20 := by
  simp [sampleItems, sumItems, itemContribution, pyIntOfRat_two]
  norm_num

theorem specRawTotal_sample : specRawTotal sampleItems = 20 := by
  rw [← sumItems_eq_specRawTotal, sumItems_sample]

theorem calc_total_sample : Violating.calc_total sampleItems = 20 := by
  simp only [Violating.calc_total, sumItems_sample]
  norm_num

theorem sumItems_tariffItem : sumItems [⟨1001, none⟩] = 1001 := by
  simp [sumItems, itemContribution, pyIntOfRat_one]

/-- C2 counterexample: for `items = [{price: 1001}]` the violating
`_calc_total` applies the hardcoded `* 1.39` tariff (the subtotal `1001`
exceeds `1000`) and returns `1391.39`, not the plain sum
`Σ(price×quantity) = 1001`. -/
theorem claim_C2_counterexample :
    Violating.calc_total [⟨1001, none⟩] = 1391.39 ∧
      specRawTotal [⟨1001, none⟩] = 1001 ∧
      Violating.calc_total [⟨1001, none⟩] ≠ specRawTotal [⟨1001, none⟩] := by
  have h1 : Violating.calc_total [⟨1001, none⟩] = 1391.39 := by
    simp only [Violating.calc_total, sumItems_tariffItem]
    norm_num
  have h2 : specRawTotal [⟨1001, none⟩] = 1001 := by
    rw [← sumItems_eq_specRawTotal, sumItems_tariffItem]
  refine ⟨h1, h2, ?_⟩
  rw [h1, h2]; norm_num

/-- C2 (amended): the raw total computed by the refactored `process`
before the discount step (`sumItems`) equals `Σ(price×quantity)` for
every items list; the violating `_calc_total` equals `Σ(price×quantity)`
exactly when that sum is at most `1000` (an if-and-only-if: above
`1000` the two always differ), and for every items list whose sum
exceeds `1000` it returns the sum multiplied by the hardcoded `1.39`
tariff. -/
theorem claim_C2 :
    (∀ items : List Item, sumItems items = specRawTotal items) ∧
      (∀ items : List Item, specRawTotal items ≤ 1000 →
        Violating.calc_total items = specRawTotal items) ∧
      (∀ items : List Item, specRawTotal items > 1000 →
        Violating.calc_total items = specRawTotal items * 1.39) ∧
      (∀ items : List Item,
        Violating.calc_total items = specRawTotal items ↔
          specRawTotal items ≤ 1000) := by
  have hcalc : ∀ items : List Item,
      Violating.calc_total items =
        if specRawTotal items > 1000 then specRawTotal items * 1.39
        else specRawTotal items := by
    intro items
    simp only [Violating.calc_total, sumItems_eq_specRawTotal]
  refine ⟨sumItems_eq_specRawTotal, fun items h => ?_, fun items h => ?_,
    fun items => ⟨fun h => ?_, fun h => ?_⟩⟩
  · rw [hcalc items, if_neg (not_lt.mpr h)]
  · rw [hcalc items, if_pos h]
  · by_contra hgt
    push_neg at hgt
    rw [hcalc items, if_pos hgt] at h
    linarith
  · rw [hcalc items, if_neg (not_lt.mpr h)]

/-- C2 witness: the sample items `[{price: 10, quantity: 2}]` sum to at
most `1000`, and there the violating `_calc_total` agrees with
`Σ(price×quantity)`; the items `[{price: 1001}]` sum to more than
`1000`, and there `_calc_total` is the sum multiplied by `1.39`. -/
theorem claim_C2_witness :
    (specRawTotal sampleItems ≤ 1000 ∧
      Violating.calc_total sampleItems = specRawTotal sampleItems) ∧
    (specRawTotal [⟨1001, none⟩] > 1000 ∧
      Violating.calc_total [⟨1001, none⟩] =
        specRawTotal [⟨1001, none⟩] * 1.39) := by
  have h1 : specRawTotal sampleItems ≤ 1000 := by
    rw [specRawTotal_sample]; norm_num
  have h2 : specRawTotal [⟨1001, none⟩] > 1000 := by
    rw [← sumItems_eq_specRawTotal, sumItems_tariffItem]; norm_num
  exact ⟨⟨h1, claim_C2.2.1 sampleItems h1⟩,
    ⟨h2, claim_C2.2.2.1 [⟨1001, none⟩] h2⟩⟩

/-- C3: each `DiscountPolicy` variant's `_apply_discounts` is a total
(never-failing, deterministic) function of the input total with the
stated formula — identity, `×0.98`, `×1.02`, `×(1−rate)` — and on the
subtotal `20` arising from `items = [{price: 10, quantity: 2}]` the
four variants yield `20`, `19.6`, `20.4` and (for rate `0.1`) `18`. -/
theorem claim_C3 :
    (∀ total : ℚ,
      Refactored.RDiscountClass.noDiscount.apply_discounts total = total) ∧
    (∀ total : ℚ,
      Refactored.RDiscountClass.paypalDiscount.apply_discounts total =
        total * 0.98) ∧
    (∀ total : ℚ,
      Refactored.RDiscountClass.creditCardFee.apply_discounts total =
        total * 1.02) ∧
    (∀ rate total : ℚ,
      (Refactored.RDiscountClass.promoDiscount rate).apply_discounts total =
        total * (1 - rate)) ∧
    sumItems sampleItems = 20 ∧
    Refactored.RDiscountClass.noDiscount.apply_discounts
      (sumItems sampleItems) = 20 ∧
    Refactored.RDiscountClass.paypalDiscount.apply_discounts
      (sumItems sampleItems) = 19.6 ∧
    Refactored.RDiscountClass.creditCardFee.apply_discounts
      (sumItems sampleItems) = 20.4 ∧
    (Refactored.RDiscountClass.promoDiscount 0.1).apply_discounts
      (sumItems sampleItems) = 18 := by
  refine ⟨fun _ => rfl, fun _ => rfl, fun _ => rfl, fun _ _ => rfl,
    sumItems_sample, ?_, ?_, ?_, ?_⟩ <;>
    simp only [Refactored.RDiscountClass.apply_discounts, sumItems_sample] <;>
    norm_num

/-- C10: in the shared per-item expression
`float(price) * int(dict.get("quantity", 1))` of both versions, an item
without a `"quantity"` key contributes `price × 1` to the raw sum, and
an item with quantity `q` contributes `price × int(q)` where `int` is
Python's truncating coercion (toward zero, e.g. `int(5/2) = 2` and
`int(-5/2) = -2`). -/
theorem claim_C10 :
    (∀ (p : ℚ) (rest : List Item),
      sumItems (⟨p, none⟩ :: rest) = p * 1 + sumItems rest) ∧
    (∀ (p q : ℚ) (rest : List Item),
      sumItems (⟨p, some q⟩ :: rest) =
        p * ((pyIntOfRat q : ℤ) : ℚ) + sumItems rest) ∧
    pyIntOfRat (5 / 2) = 2 ∧ pyIntOfRat (-5 / 2) = -2 := by
  have htrunc : pyIntOfRat (5 / 2) = 2 := by
    have h1 : ((5 : ℚ) / 2).num = 5 := by norm_num
    have h2 : ((5 : ℚ) / 2).den = 2 := by norm_num
    unfold pyIntOfRat; rw [h1, h2]; decide
  have htruncneg : pyIntOfRat (-5 / 2) = -2 := by
    have h1 : ((-5 : ℚ) / 2).num = -5 := by norm_num
    have h2 : ((-5 : ℚ) / 2).den = 2 := by norm_num
    unfold pyIntOfRat; rw [h1, h2]; decide
  refine ⟨?_, ?_, htrunc, htruncneg⟩
  · intro p rest
    rw [sumItems_eq_specRawTotal, sumItems_eq_specRawTotal]
    simp [specRawTotal, itemContribution, pyIntOfRat_one]
  · intro p q rest
    rw [sumItems_eq_specRawTotal, sumItems_eq_specRawTotal]
    simp [specRawTotal, itemContribution]

/-- C1 counterexample: the refactored `process`, wired with the concrete
collaborator classes of its own file and run on a concrete order with a
supported country, leaves the status at `"processing"` (never `"done"`)
and raises `AttributeError` for `apply` instead of returning the
discounted total — so the claim fails for the refactored version. -/
theorem claim_C1_counterexample :
    (sampleRProcessor.process initialCONFIG true sampleOrder).order.status =
        "processing" ∧
      (sampleRProcessor.process initialCONFIG true sampleOrder).order.status ≠
        "done" ∧
      (sampleRProcessor.process initialCONFIG true sampleOrder).result =
        .error (.attributeError "apply") := by
  rw [Refactored.process_eq]
  refine ⟨rfl, by decide, rfl⟩

/-- C1 (amended): in the violating version, for every order with a
supported country processed with a known payment type, `process` sets
the status to `"processing"` at the start and to `"done"` at the end
(each status written exactly once, in that order), and returns the
discounted total; the refactored version as written never reaches
`"done"`: it stops at the discount step with `AttributeError` for
`apply`. -/
theorem claim_C1 :
    (∀ (self : Violating.VState) (cfg : Config) (ok : Bool) (order : Order),
      order.country ∈ Violating.supportedCountries →
      Violating.knownPaymentType self.payment_type →
      (Violating.process self cfg ok order).order.status = "done" ∧
      (Violating.process self cfg ok order).result =
        .ok (Violating.apply_discounts self.payment_type cfg
          (Violating.calc_total order.items)) ∧
      (Violating.process self cfg ok order).events.filter
          Violating.isStatusWrite =
        [.setStatus "processing", .setStatus "done"] ∧
      (Violating.process self cfg ok order).events.head? =
        some (.setStatus "processing") ∧
      (Violating.process self cfg ok order).events.getLast? =
        some (.setStatus "done")) ∧
    (∀ (p : Refactored.RProcessor) (cfg : Config) (ok : Bool)
        (order : Order),
      (p.process cfg ok order).order.status = "processing" ∧
      (p.process cfg ok order).result = .error (.attributeError "apply")) := by
  constructor
  · intro self cfg ok order h1 h2
    rw [Violating.process_spec self cfg ok order h1 h2]
    refine ⟨rfl, rfl, ?_, rfl, by simp⟩
    rcases h2 with hp | hp | hp <;>
      simp [Violating.isStatusWrite, Violating.chargeEvent, hp]
  · intro p cfg ok order
    rw [Refactored.process_eq]
    exact ⟨rfl, rfl⟩

/-- C1 witness: for the concrete PayPal processor state and the sample
order (country `"CH"`), the violating `process` finishes with status
`"done"`. -/
theorem claim_C1_witness :
    sampleOrder.country ∈ Violating.supportedCountries ∧
      Violating.knownPaymentType sampleVState.payment_type ∧
      (Violating.process sampleVState initialCONFIG true
          sampleOrder).order.status = "done" :=
  ⟨by decide, by decide,
   (claim_C1.1 sampleVState initialCONFIG true sampleOrder (by decide)
     (by decide)).1⟩

/-- C4: for every refactored processor built from the concrete
collaborator classes of the file, `process` fails with
`AttributeError` for `apply` at the discount step: the status has been
set to `"processing"`, no side-effect event has occurred, and the
looked-up names `apply`, `charge`, `save`, `notify` are defined on none
of the discount/payment/repository/notification classes (they define
`_apply_discounts`, `_charge_payment`, `_save_to_db`,
`_email_customer`). -/
theorem claim_C4 (p : Refactored.RProcessor) (cfg : Config) (ok : Bool)
    (order : Order) :
    (p.process cfg ok order).result = .error (.attributeError "apply") ∧
    (p.process cfg ok order).order.status = "processing" ∧
    (p.process cfg ok order).events = [] ∧
    p.discount_policy.getattr "apply" = none ∧
    p.payment_gateway.getattr "charge" = none ∧
    p.repo.getattr "save" = none ∧
    p.notifier.getattr "notify" = none := by
  rw [Refactored.process_eq]
  refine ⟨rfl, rfl, rfl, ?_, ?_, ?_, ?_⟩ <;>
    simp [Refactored.RDiscountClass.getattr, Refactored.RPaymentClass.getattr,
      Refactored.SqliteOrderRepository.getattr,
      Refactored.EmailNotification.getattr]

/-- C5: whenever the violating `process` runs to completion (returns a
total `t`), the charge is invoked with the already-discounted total
(`t` itself, and it is the discounted total), and the side-effecting
steps occur in the fixed order charge, save, notify, track, backup,
each exactly once. -/
theorem claim_C5 (self : Violating.VState) (cfg : Config) (ok : Bool)
    (order : Order) (t : ℚ)
    (h : (Violating.process self cfg ok order).result = .ok t) :
    (Violating.process self cfg ok order).events.filterMap
        Violating.sideKind =
      ["charge", "save", "notify", "track", "backup"] ∧
    Violating.chargedTotals
        (Violating.process self cfg ok order).events = [t] ∧
    t = Violating.apply_discounts self.payment_type cfg
      (Violating.calc_total order.items) := by
  obtain ⟨h1, h2, ht⟩ := Violating.process_result_ok self cfg ok order t h
  rw [Violating.process_spec self cfg ok order h1 h2]
  subst ht
  refine ⟨?_, ?_, rfl⟩ <;>
    rcases h2 with hp | hp | hp <;>
    simp [Violating.sideKind, Violating.chargedTotals,
      Violating.chargeEvent, hp]

/-- C5 witness: the concrete PayPal run on the sample order completes
with the discounted total `19.6` and the five steps in order. -/
theorem claim_C5_witness :
    (Violating.process sampleVState initialCONFIG true sampleOrder).result =
        .ok 19.6 ∧
      (Violating.process sampleVState initialCONFIG true
          sampleOrder).events.filterMap Violating.sideKind =
        ["charge", "save", "notify", "track", "backup"] := by
  have hres : (Violating.process sampleVState initialCONFIG true
      sampleOrder).result = .ok 19.6 := by
    rw [Violating.process_spec sampleVState initialCONFIG true sampleOrder
      (by decide) (by decide)]
    simp [sampleVState, sampleOrder, Violating.apply_discounts,
      calc_total_sample]
    norm_num
  exact ⟨hres,
    (claim_C5 sampleVState initialCONFIG true sampleOrder 19.6 hres).1⟩

/-- C6: the violating `process` raises
`ValueError("Unsupported country, cannot proceed")` exactly when the
order's country is not one of CH, DE, AT, EU, Worldwide; when it fires,
the only thing that has happened is the status write to `"processing"`:
no external step ran and the instance state (including `_logs` and
`_total_processed`) is untouched. -/
theorem claim_C6 (self : Violating.VState) (cfg : Config) (ok : Bool)
    (order : Order) :
    ((Violating.process self cfg ok order).result =
        .error (.valueError "Unsupported country, cannot proceed") ↔
      order.country ∉ Violating.supportedCountries) ∧
    (order.country ∉ Violating.supportedCountries →
      (Violating.process self cfg ok order).events =
        [Violating.VEvent.setStatus "processing"] ∧
      (Violating.process self cfg ok order).self = self ∧
      (Violating.process self cfg ok order).order.status = "processing") := by
  constructor
  · constructor
    · intro h
      by_contra hmem
      by_cases h2 : Violating.knownPaymentType self.payment_type
      · rw [Violating.process_spec self cfg ok order hmem h2] at h
        simp at h
      · have hp : ¬ self.payment_type = "paypal" ∧
            ¬ self.payment_type = "credit-card" ∧
            ¬ self.payment_type = "promo" := by
          unfold Violating.knownPaymentType at h2; tauto
        simp [Violating.process, hmem, Violating.charge_payment,
          hp.1, hp.2.1, hp.2.2] at h
    · intro h
      rw [Violating.process_unsupported self cfg ok order h]
  · intro h
    rw [Violating.process_unsupported self cfg ok order h]
    exact ⟨rfl, rfl, rfl⟩

/-- C6 witness: the order with country `"XX"` is rejected with the
`ValueError`, and only the status write happened. -/
theorem claim_C6_witness :
    badCountryOrder.country ∉ Violating.supportedCountries ∧
      (Violating.process sampleVState initialCONFIG true
          badCountryOrder).result =
        .error (.valueError "Unsupported country, cannot proceed") ∧
      (Violating.process sampleVState initialCONFIG true
          badCountryOrder).events =
        [Violating.VEvent.setStatus "processing"] := by
  have h := claim_C6 sampleVState initialCONFIG true badCountryOrder
  exact ⟨by decide, h.1.mpr (by decide), (h.2 (by decide)).1⟩

/-- C7: the analytics step never propagates an exception: both the
refactored `HttpAnalytics.track` and the violating `_post_analytics`
are total functions of the post outcome (the `except` swallows the
failure).  When the post fails the failure entry is appended to the
in-memory log, yet the "Analytics posted" success entry is appended
(and ends the log) regardless of the outcome. -/
theorem claim_C7 :
    (∀ (a : Refactored.HttpAnalytics) (ok : Bool) (order : Order),
      ("📊 Analytics posted for order " ++ order.id) ∈
        (a.track ok order).logs ∧
      (a.track ok order).logs.getLast? =
        some ("📊 Analytics posted for order " ++ order.id) ∧
      (ok = false →
        ("⚠️ Failed to post analytics for order " ++ order.id) ∈
          (a.track ok order).logs)) ∧
    (∀ (logs : List String) (ok : Bool),
      "Analytics posted" ∈ Violating.post_analytics logs ok ∧
      Violating.post_analytics logs ok ≠ [] ∧
      (Violating.post_analytics logs ok).getLast? =
        some "Analytics posted" ∧
      (ok = false →
        "Failed to post analytics" ∈ Violating.post_analytics logs ok)) := by
  constructor
  · intro a ok order
    cases ok <;> simp [Refactored.HttpAnalytics.track]
  · intro logs ok
    cases ok <;> simp [Violating.post_analytics]

/-- C7 witness: with an empty log and a failing post, the violating
`_post_analytics` records both the failure entry and the (wrong)
success entry. -/
theorem claim_C7_witness :
    "Analytics posted" ∈ Violating.post_analytics [] false ∧
      "Failed to post analytics" ∈ Violating.post_analytics [] false :=
  ⟨(claim_C7.2 [] false).1, (claim_C7.2 [] false).2.2.2 rfl⟩

/-- C8: constructing the violating `OrderProcessor` with
`payment_type = "promo"` sets the global `CONFIG["discount"]` to `0.6`,
and every promo discount computation reads `CONFIG["discount"]` — so
after such a construction every promo discount is `total × (1 − 0.6)`.
The refactored `process`, in contrast, returns the global config
unchanged and its entire observable behaviour is independent of it:
it touches only the passed order and the collaborators it was
constructed with. -/
theorem claim_C8 :
    (∀ (w : Violating.VWorld) (cid : String),
      (Violating.construct w cid "promo").2.config.discount = 0.6) ∧
    (∀ (cfg : Config) (total : ℚ),
      Violating.apply_discounts "promo" cfg total =
        total * (1 - cfg.discount)) ∧
    (∀ (w : Violating.VWorld) (cid : String) (total : ℚ),
      Violating.apply_discounts "promo"
          (Violating.construct w cid "promo").2.config total =
        total * (1 - 0.6)) ∧
    (∀ (p : Refactored.RProcessor) (cfg cfg2 : Config) (ok : Bool)
        (order : Order),
      (p.process cfg ok order).config = cfg ∧
      (p.process cfg ok order).order = (p.process cfg2 ok order).order ∧
      (p.process cfg ok order).events = (p.process cfg2 ok order).events ∧
      (p.process cfg ok order).result = (p.process cfg2 ok order).result ∧
      (p.process cfg ok order).analytics_logs =
        (p.process cfg2 ok order).analytics_logs) := by
  refine ⟨?_, ?_, ?_, ?_⟩
  · intro w cid
    cases hw : w.instanceAddr <;> simp [Violating.construct, hw]
  · intro cfg total
    simp [Violating.apply_discounts]
  · intro w cid total
    cases hw : w.instanceAddr <;>
      simp [Violating.construct, Violating.apply_discounts, hw]
  · intro p cfg cfg2 ok order
    rw [Refactored.process_eq, Refactored.process_eq]
    exact ⟨rfl, rfl, rfl, rfl, rfl⟩

/-- C9: the violating `OrderProcessor` is a (misused) singleton: a
second construction returns the same object address as the first and
re-runs `__init__` on it, overwriting `_customer_id` and
`_payment_type` and resetting `_total_processed` to `0` and `_logs` to
`[]`; and starting from the freshly imported module, any sequence of
constructions leaves at most one object on the heap. -/
theorem claim_C9 :
    (∀ (w : Violating.VWorld) (cid1 pt1 cid2 pt2 : String),
      (Violating.construct (Violating.construct w cid1 pt1).2 cid2 pt2).1 =
        (Violating.construct w cid1 pt1).1 ∧
      Violating.heapGet
          (Violating.construct (Violating.construct w cid1 pt1).2 cid2
            pt2).2.heap
          (Violating.construct w cid1 pt1).1 =
        some ⟨cid2, pt2, 0, []⟩) ∧
    (∀ calls : List (String × String),
      (Violating.runConstructs Violating.initialWorld calls).heap.length ≤
        1) := by
  constructor
  · intro w cid1 pt1 cid2 pt2
    exact Violating.construct_of_instanceAddr _ _ cid2 pt2
      (Violating.construct_instanceAddr w cid1 pt1)
  · intro calls
    have h := Violating.runConstructs_singletonInv calls
      Violating.initialWorld (Or.inl ⟨rfl, rfl⟩)
    rcases h with ⟨_, hh⟩ | ⟨a, v, _, hh⟩ <;> simp [hh]
